import Mathlib

/-!
Shallow embedding of the binary-security-check analysis engine.

The definitions below are translated from the Rust sources of the repository:
`src/elf/mod.rs`, `src/elf/checked_functions.rs`, `src/elf/needed_libc.rs`,
`src/pe/mod.rs`, `src/archive/mod.rs`, `src/options/status.rs`, `src/cmdline.rs`.
Machine integers are modelled as `Nat` (all the involved quantities are
unsigned, and no wrapping arithmetic occurs on the modelled paths); strings
are Lean `String`s; `HashSet`s are modelled as lists with membership-based
lookups (only set membership and emptiness are ever observed by the modelled
code); fallible operations return `Option` or `Except`.
-/

namespace BinarySecurityCheck

/-! ## ELF data model (mirrors the parts of `goblin::elf::Elf` that the code reads) -/

/-- One ELF symbol-table entry (`goblin::elf::sym::Sym`).
`st_name` is an index into a string table; `st_info` packs the binding
(high nibble) and the type (low nibble); `st_other` holds the visibility. -/
structure Sym where
  st_name : Nat
  st_info : Nat
  st_other : Nat
  st_value : Nat
deriving DecidableEq

/-- `Sym::st_type`: the low nibble of `st_info`. -/
def Sym.st_type (s : Sym) : Nat := s.st_info % 16

/-- `Sym::st_bind`: the high nibble of `st_info`. -/
def Sym.st_bind (s : Sym) : Nat := s.st_info / 16

/-- One entry of the ELF dynamic section (`goblin::elf::dynamic::Dyn`). -/
structure Dyn where
  d_tag : Nat
  d_val : Nat
deriving DecidableEq

/-- The part of a parsed ELF object (`goblin::elf::Elf`) read by the analyzers.
A string table is modelled as a partial map from index to name; `none` stands
for both an unmapped index and a name that is not valid UTF-8, which the code
treats identically (`.get(idx).and_then(Result::ok)`). -/
structure Elf where
  e_type : Nat
  e_machine : Nat
  dynsyms : List Sym
  syms : List Sym
  dynstrtab : Nat → Option String
  strtab : Nat → Option String
  program_headers : List Nat
  dynamic : Option (List Dyn)
  libraries : List String

/-! ### ELF constants (`goblin::elf`) -/

def ET_EXEC : Nat := 2
def ET_DYN : Nat := 3
def STT_NOTYPE : Nat := 0
def STT_FUNC : Nat := 2
def STT_GNU_IFUNC : Nat := 10
def STB_GLOBAL : Nat := 1
def STB_WEAK : Nat := 2
def STB_GNU_UNIQUE : Nat := 10
/-- `src/elf/mod.rs`: visibility is specified by binding type. -/
def STV_DEFAULT : Nat := 0

/-! ## Status model (`src/options/status.rs`) -/

/-- Output markers (`src/options/status.rs`). -/
def MARKER_GOOD : Char := '+'
def MARKER_BAD : Char := '!'
def MARKER_MAYBE : Char := '~'
def MARKER_UNKNOWN : Char := '?'

/-- `src/options/status.rs::ASLRCompatibilityLevel`. -/
inductive ASLRCompatibilityLevel where
  | Unknown
  | Unsupported
  | Expensive
  | SupportedLowEntropyBelow2G
  | SupportedLowEntropy
  | SupportedBelow2G
  | Supported
deriving DecidableEq

namespace Elf

/-- `src/elf/mod.rs::dynamic_symbol_is_named_function`: a dynamic symbol is a
named function when its type is `STT_FUNC` or `STT_GNU_IFUNC` and its name
resolves in `dynstrtab` to a valid, non-empty string. -/
def dynamic_symbol_is_named_function (elf : Elf) (symbol : Sym) : Option String :=
  if symbol.st_type = STT_FUNC ∨ symbol.st_type = STT_GNU_IFUNC then
    (elf.dynstrtab symbol.st_name).filter (fun name => !(name == ""))
  else
    none

/-- `src/elf/mod.rs::symbol_is_named_function_or_unspecified`: type must be
`STT_FUNC`, `STT_GNU_IFUNC` or `STT_NOTYPE`, and the name must resolve in the
static string table `strtab` to a valid, non-empty string. -/
def symbol_is_named_function_or_unspecified (elf : Elf) (symbol : Sym) : Option String :=
  if symbol.st_type = STT_FUNC ∨ symbol.st_type = STT_GNU_IFUNC ∨ symbol.st_type = STT_NOTYPE then
    (elf.strtab symbol.st_name).filter (fun name => !(name == ""))
  else
    none

/-- `src/elf/mod.rs::dynamic_symbol_is_named_exported_function`: visibility
`STV_DEFAULT`, type `STT_FUNC`/`STT_GNU_IFUNC`, binding `STB_GLOBAL`/`STB_WEAK`/
`STB_GNU_UNIQUE`, non-zero value, and a valid non-empty name in `dynstrtab`. -/
def dynamic_symbol_is_named_exported_function (elf : Elf) (symbol : Sym) : Option String :=
  if symbol.st_other = STV_DEFAULT then
    if symbol.st_type = STT_FUNC ∨ symbol.st_type = STT_GNU_IFUNC then
      if (symbol.st_bind = STB_GLOBAL ∨ symbol.st_bind = STB_WEAK ∨
          symbol.st_bind = STB_GNU_UNIQUE) ∧ symbol.st_value ≠ 0 then
        (elf.dynstrtab symbol.st_name).filter (fun name => !(name == ""))
      else none
    else none
  else none

/-- `src/elf/mod.rs::dynamic_symbol_is_named_imported_function`: type
`STT_FUNC`/`STT_GNU_IFUNC`, binding `STB_GLOBAL`/`STB_WEAK`/`STB_GNU_UNIQUE`,
value equal to zero (undefined, resolved by the dynamic linker), and a valid
non-empty name in `dynstrtab`. -/
def dynamic_symbol_is_named_imported_function (elf : Elf) (symbol : Sym) : Option String :=
  if symbol.st_type = STT_FUNC ∨ symbol.st_type = STT_GNU_IFUNC then
    if (symbol.st_bind = STB_GLOBAL ∨ symbol.st_bind = STB_WEAK ∨
        symbol.st_bind = STB_GNU_UNIQUE) ∧ symbol.st_value = 0 then
      (elf.dynstrtab symbol.st_name).filter (fun name => !(name == ""))
    else none
  else none

/-- `src/elf/mod.rs::has_stack_protection`: scan the dynamic symbols for a
named function whose name is exactly `__stack_chk_fail`. -/
def has_stack_protection (elf : Elf) : Bool :=
  (elf.dynsyms.filterMap (elf.dynamic_symbol_is_named_function)).any
    (fun name => name == "__stack_chk_fail")

/-- `src/options/mod.rs` (`ELFStackProtectionOption::check`, ELF case): the
verdict is wrapped as `YesNoUnknownStatus::new`, i.e. always a definite
`some` boolean, never the `unknown` (`none`) variant. -/
def stack_protection_status (elf : Elf) : Option Bool :=
  some elf.has_stack_protection

/-- `src/elf/mod.rs::supports_aslr` (ELF): decide only on `e_type`; the
program-header / dynamic-section inspection in the source is inside
`log_enabled!` blocks and only produces diagnostics. -/
def supports_aslr (elf : Elf) : ASLRCompatibilityLevel :=
  if elf.e_type = ET_EXEC then
    ASLRCompatibilityLevel.Unsupported
  else if elf.e_type = ET_DYN then
    ASLRCompatibilityLevel.Supported
  else
    ASLRCompatibilityLevel.Unknown

end Elf

/-! ## Checked libc functions (`src/elf/checked_functions.rs`) -/

/-- `src/elf/checked_functions.rs::CheckedFunction`: a checked/unchecked libc
function pair, stored by its checked name; equality is on the checked name. -/
structure CheckedFunction where
  checked_name : String
deriving DecidableEq

/-- `CheckedFunction::from_checked_name`. -/
def CheckedFunction.from_checked_name (checked_name : String) : CheckedFunction :=
  ⟨checked_name⟩

/-- `CheckedFunction::from_unchecked_name`: stores `__<name>_chk`. -/
def CheckedFunction.from_unchecked_name (unchecked_name : String) : CheckedFunction :=
  ⟨"__" ++ unchecked_name ++ "_chk"⟩

/-- A Rust string slice `&s[start..stop]`: in range (and thus panic-free) only
when `start ≤ stop ≤ s.len()`; out of range, the Rust code panics, which is
modelled by `none`. The sources only slice ASCII data, so byte indexing and
character indexing coincide. -/
def string_slice (s : List Char) (start stop : Nat) : Option (List Char) :=
  if start ≤ stop ∧ stop ≤ s.length then some ((s.take stop).drop start) else none

/-- `CheckedFunction::get_unchecked_name`: the slice
`&checked_name[2 .. len - 4]`, which strips `__` and `_chk`. The subtraction
is `usize` subtraction; on the names reaching this code the length is at least
4, so `Nat` truncated subtraction agrees with it, and an out-of-range slice
(Rust panic) is modelled by `none`. -/
def CheckedFunction.get_unchecked_name_opt (f : CheckedFunction) : Option String :=
  (string_slice f.checked_name.toList 2 (f.checked_name.toList.length - 4)).map
    (fun l => String.mk l)

/-- `str::starts_with`, character-list based (the names and paths this program
tests are ASCII, where byte and character comparison coincide; Lean's own
`String.startsWith` is byte-position based and does not reduce in the
kernel). -/
def str_starts_with (s pat : String) : Bool :=
  s.toList.take pat.toList.length == pat.toList

/-- `str::ends_with`, character-list based (see `str_starts_with`). -/
def str_ends_with (s pat : String) : Bool :=
  s.toList.drop (s.toList.length - pat.toList.length) == pat.toList

/-- `src/elf/checked_functions.rs::function_is_checked_version`: the name
starts with `__` and ends with `_chk` (the two may overlap, as in `__chk`). -/
def function_is_checked_version (name : String) : Bool :=
  str_starts_with name "__" && str_ends_with name "_chk"

/-! ## The resolved C runtime library (`src/elf/needed_libc.rs`) -/

/-- `src/elf/needed_libc.rs::NeededLibC`: the set of checked functions exported
by the resolved C runtime library. The `HashSet<CheckedFunction>` is modelled
as a list queried only through membership, which is the set semantics. -/
structure NeededLibC where
  checked_functions : List CheckedFunction
deriving DecidableEq

/-- `NeededLibC::get_checked_functions_elf`: scan the library's dynamic
symbols, keep the named exported functions whose name follows the
checked-function naming convention, and collect them as `CheckedFunction`s. -/
def NeededLibC.get_checked_functions_elf (elf : Elf) : List CheckedFunction :=
  ((elf.dynsyms.filterMap (elf.dynamic_symbol_is_named_exported_function)).filter
      function_is_checked_version).map CheckedFunction.from_checked_name

/-- `NeededLibC::exports_function`: look the checked name up in the set and
return the unchecked name of the stored entry. `HashSet::get` returns the
stored element, whose checked name equals the probe's, so computing the
unchecked name of the probe is faithful. `none` covers both a failed lookup
and a panicking `get_unchecked_name` (the Rust process would abort there). -/
def NeededLibC.exports_function (libc : NeededLibC) (checked_name : String) : Option String :=
  if CheckedFunction.from_checked_name checked_name ∈ libc.checked_functions then
    (CheckedFunction.from_checked_name checked_name).get_unchecked_name_opt
  else none

/-- `NeededLibC::exports_checked_version_of_function`: look up the checked
counterpart `__<name>_chk` of an unchecked name. -/
def NeededLibC.exports_checked_version_of_function (libc : NeededLibC) (unchecked_name : String) :
    Option String :=
  if CheckedFunction.from_unchecked_name unchecked_name ∈ libc.checked_functions then
    (CheckedFunction.from_unchecked_name unchecked_name).get_unchecked_name_opt
  else none

/-! ## Fortify-source evaluation (`src/elf/mod.rs`, `src/options/status.rs`) -/

/-- Insertion into a `HashSet<&str>` modelled on lists: no-op when already
present. -/
def hashset_insert (s : List String) (x : String) : List String :=
  if x ∈ s then s else s ++ [x]

/-- `src/elf/mod.rs::get_libc_functions_by_protection`: partition the imported
dynamic function symbols into protected (checked import exported by the libc)
and unprotected (unchecked import whose checked counterpart the libc exports).
A checked import the libc does not export only logs a warning. -/
def get_libc_functions_by_protection (elf : Elf) (libc : NeededLibC) :
    List String × List String :=
  let imported_functions := elf.dynsyms.filterMap (elf.dynamic_symbol_is_named_imported_function)
  imported_functions.foldl
    (fun acc imported_function =>
      if function_is_checked_version imported_function then
        match libc.exports_function imported_function with
        | some unchecked_function => (hashset_insert acc.1 unchecked_function, acc.2)
        | none => acc
      else
        match libc.exports_checked_version_of_function imported_function with
        | some unchecked_function => (acc.1, hashset_insert acc.2 unchecked_function)
        | none => acc)
    ([], [])

/-- `src/options/status.rs` (`DisplayInColorTerm for Pin<Box<ELFFortifySourceStatus>>`):
the marker chosen from the emptiness of the protected / unprotected sets. -/
def fortify_source_marker (protected_functions unprotected_functions : List String) : Char :=
  match protected_functions.isEmpty, unprotected_functions.isEmpty with
  | true, true => MARKER_UNKNOWN
  | true, false => MARKER_BAD
  | false, true => MARKER_GOOD
  | false, false => MARKER_MAYBE

/-- The fortify-source verdict of a whole evaluation: the marker of the two
sets computed by `get_libc_functions_by_protection`. -/
def elf_fortify_source_verdict (elf : Elf) (libc : NeededLibC) : Char :=
  fortify_source_marker (get_libc_functions_by_protection elf libc).1
    (get_libc_functions_by_protection elf libc).2

/-! ## Archive analyzer (`src/archive/mod.rs`) -/

/-- The possible outcomes of `archive.extract` followed by
`goblin::Object::parse` on one archive member's bytes. -/
inductive MemberContent where
  | extractError
  | parseError
  | elfObject (e : Elf)
  | nonElf
deriving Nonempty

/-- One archive member: its name and what its bytes extract/parse to. -/
structure ArchiveMember where
  name : String
  content : MemberContent
deriving Nonempty

/-- The errors surfaced by the archive scan (`Error::Goblin1`, `Error::Goblin`,
`Error::UnexpectedBinaryFormat` in `src/archive/mod.rs`). -/
inductive ArchiveError where
  | extractFailed (member : String)
  | parseFailed
  | unexpectedBinaryFormat (member : String)
deriving DecidableEq

namespace Archive

/-- The symbol scan inside `src/archive/mod.rs::member_has_stack_protection`:
any named function-or-unspecified symbol of the member's static symbol table
is literally `__stack_chk_fail` or `__stack_chk_fail_local`. -/
def elf_member_scan (e : Elf) : Bool :=
  (e.syms.filterMap (e.symbol_is_named_function_or_unspecified)).any
    (fun name => name == "__stack_chk_fail" || name == "__stack_chk_fail_local")

/-- `src/archive/mod.rs::member_has_stack_protection` together with the
`archive.extract` step of the enclosing loop: extraction or parse failures and
non-ELF members are hard errors; an ELF member is scanned. -/
def member_has_stack_protection (m : ArchiveMember) : Except ArchiveError Bool :=
  match m.content with
  | MemberContent.extractError => Except.error (ArchiveError.extractFailed m.name)
  | MemberContent.parseError => Except.error ArchiveError.parseFailed
  | MemberContent.elfObject e => Except.ok (elf_member_scan e)
  | MemberContent.nonElf => Except.error (ArchiveError.unexpectedBinaryFormat m.name)

/-- `src/archive/mod.rs::has_stack_protection`: walk the members in
enumeration order; propagate the first error; return `true` at the first
member that satisfies the scan; `false` when the members are exhausted. -/
def has_stack_protection : List ArchiveMember → Except ArchiveError Bool
  | [] => Except.ok false
  | m :: rest =>
    match member_has_stack_protection m with
    | Except.error e => Except.error e
    | Except.ok true => Except.ok true
    | Except.ok false => has_stack_protection rest

/-- A member that extracts, parses as ELF, and whose scan finds a qualifying
symbol. -/
def member_satisfies (m : ArchiveMember) : Bool :=
  match member_has_stack_protection m with
  | Except.ok true => true
  | _ => false

/-- A member whose extraction and ELF parse succeed. -/
def member_is_elf (m : ArchiveMember) : Bool :=
  match m.content with
  | MemberContent.elfObject _ => true
  | _ => false

end Archive

/-! ## PE data model (mirrors the parts of `goblin::pe::PE` that the code reads) -/

/-- `goblin::pe::data_directories::DataDirectory`. -/
structure DataDirectory where
  virtual_address : Nat
  size : Nat
deriving DecidableEq

/-- The fields of `goblin::pe::section_table::SectionTable` read by the code.
`name` is `none` when `section.name()` fails (non-UTF-8 name). -/
structure SectionTable where
  name : Option String
  characteristics : Nat
  virtual_address : Nat
  virtual_size : Nat
  pointer_to_raw_data : Nat
deriving DecidableEq

/-- The fields of the optional header read by the code; `load_config_table` is
`*optional_header.data_directories.get_load_config_table()`. -/
structure OptionalHeader where
  dll_characteristics : Nat
  check_sum : Nat
  load_config_table : Option DataDirectory
deriving DecidableEq

/-- The fields of `goblin::pe::PE` read by the code. -/
structure PE where
  coff_characteristics : Nat
  is_64 : Bool
  optional_header : Option OptionalHeader
  sections : List SectionTable
deriving DecidableEq

/-! ### PE constants (`src/pe/mod.rs`, `goblin::pe::section_table`) -/

def IMAGE_DLLCHARACTERISTICS_DYNAMIC_BASE : Nat := 0x0040
def IMAGE_DLLCHARACTERISTICS_HIGH_ENTROPY_VA : Nat := 0x0020
def IMAGE_FILE_LARGE_ADDRESS_AWARE : Nat := 0x0020
def IMAGE_FILE_RELOCS_STRIPPED : Nat := 0x0001
def IMAGE_SCN_CNT_INITIALIZED_DATA : Nat := 0x00000040
def IMAGE_SCN_MEM_READ : Nat := 0x40000000
def RDATA_CHARACTERISTICS : Nat := IMAGE_SCN_CNT_INITIALIZED_DATA ||| IMAGE_SCN_MEM_READ
def PDATA_CHARACTERISTICS : Nat := IMAGE_SCN_CNT_INITIALIZED_DATA ||| IMAGE_SCN_MEM_READ

namespace PE

/-- `src/pe/mod.rs::supports_aslr` (PE). -/
def supports_aslr (pe : PE) : ASLRCompatibilityLevel :=
  if pe.coff_characteristics &&& IMAGE_FILE_RELOCS_STRIPPED != 0 then
    ASLRCompatibilityLevel.Unsupported
  else
    match pe.optional_header with
    | some optional_header =>
      if optional_header.dll_characteristics &&& IMAGE_DLLCHARACTERISTICS_DYNAMIC_BASE != 0 then
        let handles_addresses_larger_than_2_gigabytes :=
          pe.coff_characteristics &&& IMAGE_FILE_LARGE_ADDRESS_AWARE != 0
        if optional_header.dll_characteristics &&& IMAGE_DLLCHARACTERISTICS_HIGH_ENTROPY_VA != 0 then
          if handles_addresses_larger_than_2_gigabytes then
            ASLRCompatibilityLevel.Supported
          else
            ASLRCompatibilityLevel.SupportedBelow2G
        else if handles_addresses_larger_than_2_gigabytes then
          if pe.is_64 then
            ASLRCompatibilityLevel.SupportedLowEntropy
          else
            ASLRCompatibilityLevel.Supported
        else if pe.is_64 then
          ASLRCompatibilityLevel.SupportedLowEntropyBelow2G
        else
          ASLRCompatibilityLevel.SupportedBelow2G
      else
        ASLRCompatibilityLevel.Expensive
    | none => ASLRCompatibilityLevel.Unknown

end PE

/-- Little-endian read of `width` bytes at offset `off` from the mapped file
bytes, as done by `scroll::Pread::pread_with::<uN>(off, scroll::LE)`: fails
(`Err`, modelled as `none`) when the read does not fit in the buffer. Each
byte is a `u8`, hence the `% 256`. -/
def read_le_nat (bytes : List Nat) (off width : Nat) : Option Nat :=
  if off + width ≤ bytes.length then
    some (((List.range width).map (fun i => bytes.getD (off + i) 0 % 256 * 256 ^ i)).sum)
  else none

/-- Byte offset of `SEHandlerCount` in `ImageLoadConfigDirectory32`
(`#[repr(C)]`: nineteen fields of sizes 4,4,2,2,4,4,4,4,4,4,4,4,4,4,2,2,4,4,4
precede it). -/
def ImageLoadConfigDirectory32_SEHandlerCount_offset : Nat := 68

/-- Width of `ImageLoadConfigDirectory32_SEHandlerCount_Type` (`u32`). -/
def ImageLoadConfigDirectory32_SEHandlerCount_size : Nat := 4

/-- Byte offset of `SEHandlerCount` in `ImageLoadConfigDirectory64`
(`#[repr(C)]` with 8-byte alignment for the `u64` fields). -/
def ImageLoadConfigDirectory64_SEHandlerCount_offset : Nat := 104

/-- Width of `ImageLoadConfigDirectory64_SEHandlerCount_Type` (`u64`). -/
def ImageLoadConfigDirectory64_SEHandlerCount_size : Nat := 8

namespace PE

/-- `src/pe/mod.rs::has_pdata_section`: some section has at least the
initialized-data and readable characteristics and is named `.pdata` (a
non-UTF-8 name counts as not matching). -/
def has_pdata_section (pe : PE) : Bool :=
  pe.sections.any (fun sect =>
    if sect.characteristics &&& PDATA_CHARACTERISTICS == PDATA_CHARACTERISTICS then
      ((sect.name.map (fun name => name == ".pdata")).getD false)
    else false)

/-- `src/pe/mod.rs::image_load_configuration_directory_has_safe_seh_handlers`:
read the directory's declared `Size` at its file offset; only if that size
covers the architecture-specific `SEHandlerCount` field, read that field and
report whether it is greater than zero; any failed read yields `none`.
The virtual-address subtraction is guarded by the caller's section-containment
check, so `Nat` subtraction is exact here. -/
def image_load_configuration_directory_has_safe_seh_handlers
    (bytes : List Nat) (pe : PE) (sect : SectionTable) (load_config_table : DataDirectory) :
    Option Bool :=
  let offset_of_se_handler_count :=
    if pe.is_64 then ImageLoadConfigDirectory64_SEHandlerCount_offset
    else ImageLoadConfigDirectory32_SEHandlerCount_offset
  let size_of_se_handler_count :=
    if pe.is_64 then ImageLoadConfigDirectory64_SEHandlerCount_size
    else ImageLoadConfigDirectory32_SEHandlerCount_size
  let config_table_offset_in_section :=
    load_config_table.virtual_address - sect.virtual_address
  let config_table_offset_in_file :=
    sect.pointer_to_raw_data + config_table_offset_in_section
  let se_handler_count_offset_in_file :=
    config_table_offset_in_file + offset_of_se_handler_count
  ((read_le_nat bytes config_table_offset_in_file 4).filter
      (fun load_config_directory_size =>
        decide (offset_of_se_handler_count + size_of_se_handler_count ≤
          load_config_directory_size))).bind
    (fun _ =>
      (read_le_nat bytes se_handler_count_offset_in_file size_of_se_handler_count).map
        (fun se_handler_count => decide (se_handler_count > 0)))

/-- `src/pe/mod.rs::has_safe_seh_handlers`: optional header → non-empty load
configuration table → containing readable initialized-data section → read of
`SEHandlerCount`; `none` at every failure point. -/
def has_safe_seh_handlers (bytes : List Nat) (pe : PE) : Option Bool :=
  ((pe.optional_header.bind (fun optional_header => optional_header.load_config_table)).filter
      (fun load_config_table => decide (load_config_table.size > 0))).bind
    (fun load_config_table =>
      match pe.sections.find? (fun sect =>
          sect.characteristics &&& RDATA_CHARACTERISTICS == RDATA_CHARACTERISTICS
          && decide (sect.virtual_address ≤ load_config_table.virtual_address)
          && decide (load_config_table.virtual_address + load_config_table.size ≤
              sect.virtual_address + sect.virtual_size)) with
      | some sect =>
        image_load_configuration_directory_has_safe_seh_handlers bytes pe sect
          load_config_table
      | none => none)

/-- `src/pe/mod.rs::has_safe_structured_exception_handlers`: `Some(true)` from
the load-configuration chain yields `true`; `Some(false)` and `None` both fall
back to the `.pdata`-presence check. -/
def has_safe_structured_exception_handlers (bytes : List Nat) (pe : PE) : Bool :=
  match has_safe_seh_handlers bytes pe with
  | some true => true
  | _ => has_pdata_section pe

end PE

/-! ## The libc resolver (`src/elf/needed_libc.rs::LibCResolver`) -/

/-- A `\w` word character of the `regex` crate, restricted to ASCII (every
name this program matches against the libc pattern is ASCII). -/
def regex_word_char (c : Char) : Bool := c.isAlphanum || c == '_'

/-- The `[^/]+$` tail of `KNOWN_LIBC_PATTERN` together with the preceding
`\b`: since the previous matched character is a word character, the boundary
requires the next character to be a non-word character, and `[^/]+$` requires
at least one remaining character, none of which is `/`. -/
def libc_pattern_tail_ok : List Char → Bool
  | [] => false
  | c :: rest => !regex_word_char c && (c :: rest).all (fun d => !(d == '/'))

/-- A match of `KNOWN_LIBC_PATTERN` = `\blib(c|bionic)\b[^/]+$` starting at
position `i` of the lower-cased character list `cs`. -/
def libc_pattern_match_at (cs : List Char) (i : Nat) : Bool :=
  (i == 0 || !regex_word_char (cs.getD (i - 1) ' ')) &&
  (let rest := cs.drop i
   rest.take 3 == ['l', 'i', 'b'] &&
   (let rest2 := rest.drop 3
    (rest2.take 1 == ['c'] && libc_pattern_tail_ok (rest2.drop 1)) ||
    (rest2.take 6 == ['b', 'i', 'o', 'n', 'i', 'c'] && libc_pattern_tail_ok (rest2.drop 6))))

/-- `src/elf/needed_libc.rs::KNOWN_LIBC_PATTERN.is_match`: the case-insensitive
regular expression `\blib(c|bionic)\b[^/]+$` matches somewhere in the name. -/
def known_libc_pattern_is_match (s : String) : Bool :=
  let cs := s.toList.map Char.toLower
  (List.range cs.length).any (fun i => libc_pattern_match_at cs i)

/-- `src/elf/needed_libc.rs::KNOWN_PREFIXES` (the source calls the two path
roots crossed with the library directories "known prefixes"). -/
def KNOWN_ROOTS : List String := ["", "usr"]

/-- `src/elf/needed_libc.rs::KNOWN_LIB_DIRS`. -/
def KNOWN_LIB_DIRS : List String := ["lib", "lib64", "lib32"]

/-- `std::path::Path::join` restricted to the relative, ASCII components this
code joins: appends a `/`-separated component, leaving the base unchanged for
an empty component. -/
def path_join (base comp : String) : String :=
  if comp == "" then base
  else if str_ends_with base "/" then base ++ comp
  else base ++ "/" ++ comp

/-- One entry of the dynamic-linker cache (`dynamic_loader_cache::Entry`):
a library file name mapped to the absolute path of the library. -/
structure CacheEntry where
  file_name : String
  full_path : String
deriving DecidableEq

/-- The external state `LibCResolver` works against: the sysroot (`/` when no
explicit sysroot is given), the dynamic-linker cache (`some` exactly when no
explicit sysroot was given, as in `LibCResolver::new`; entries that fail to
decode are already dropped, as by `filter_map(Result::ok)`), and the
filesystem, modelled as a map from a path to the ELF object that opening and
parsing the file at that path yields (`none` when opening, mapping or parsing
fails, or the file is not ELF). -/
structure ResolverEnv where
  sys_root : String
  ld_so_cache : Option (List CacheEntry)
  fs : String → Option Elf

/-- The `Error` variants (`src/errors.rs`) a libc resolution can surface.
`openOrParseFailed` stands for the several open/map/parse error variants,
which the resolver never distinguishes. -/
inductive LibcError where
  | UnrecognizedNeededLibC
  | NotFoundNeededLibC (path : String)
  | UnexpectedBinaryArchitecture (path : String)
  | openOrParseFailed (path : String)
deriving DecidableEq

/-- Decidable equality of `Except` outcomes (needed to evaluate the resolver
and the archive scan on concrete inputs). -/
instance instDecEqExcept {e a : Type} [DecidableEq e] [DecidableEq a] :
    DecidableEq (Except e a) := fun x y =>
  match x, y with
  | Except.ok u, Except.ok v =>
    if h : u = v then isTrue (by rw [h]) else isFalse (fun hh => by cases hh; exact h rfl)
  | Except.ok _, Except.error _ => isFalse (fun hh => by cases hh)
  | Except.error _, Except.ok _ => isFalse (fun hh => by cases hh)
  | Except.error u, Except.error v =>
    if h : u = v then isTrue (by rw [h]) else isFalse (fun hh => by cases hh; exact h rfl)

/-- `Result::is_ok`. -/
def result_is_ok : Except LibcError NeededLibC → Bool
  | Except.ok _ => true
  | Except.error _ => false

/-- `NeededLibC::open_elf_for_architecture`: open and parse the file at `path`
as an ELF object; its machine architecture must equal the analyzed binary's;
on success collect the library's checked functions. -/
def open_elf_for_architecture (env : ResolverEnv) (path : String) (other_elf : Elf) :
    Except LibcError NeededLibC :=
  match env.fs path with
  | some elf =>
    if elf.e_machine = other_elf.e_machine then
      Except.ok ⟨NeededLibC.get_checked_functions_elf elf⟩
    else
      Except.error (LibcError.UnexpectedBinaryArchitecture path)
  | none => Except.error (LibcError.openOrParseFailed path)

/-- The first successful parse among a list of candidate libc paths, as
`.map(|path| NeededLibC::open_elf_for_architecture(path, elf)).find(Result::is_ok)`
computes it. -/
def first_ok_result (env : ResolverEnv) (e : Elf) (paths : List String) :
    Option (Except LibcError NeededLibC) :=
  (paths.map (fun path => open_elf_for_architecture env path e)).find? result_is_ok

/-- The cache candidates of `LibCResolver::open_compatible_libc`: the full
paths of the cache entries whose file name equals the needed library name, in
cache order; empty when there is no cache (explicit sysroot). -/
def cache_candidate_paths (env : ResolverEnv) (file_name : String) : List String :=
  match env.ld_so_cache with
  | some entries =>
    entries.filterMap (fun e => if e.file_name == file_name then some e.full_path else none)
  | none => []

/-- The well-known candidates of `LibCResolver::open_compatible_libc`:
`KNOWN_LIB_DIRS` crossed with `KNOWN_PREFIXES` (directories outermost, as the
source's `flat_map` nests them), joined under the sysroot. -/
def known_dir_candidate_paths (env : ResolverEnv) (file_name : String) : List String :=
  KNOWN_LIB_DIRS.flatMap (fun lib =>
    KNOWN_ROOTS.map (fun root =>
      path_join (path_join (path_join env.sys_root root) lib) file_name))

/-- `LibCResolver::open_compatible_libc`: try every cache location of the
needed library name and return the first that parses successfully; otherwise
try the well-known locations in order and return the first success; otherwise
fail with `NotFoundNeededLibC`. -/
def open_compatible_libc (env : ResolverEnv) (elf : Elf) (file_name : String) :
    Except LibcError NeededLibC :=
  match ((cache_candidate_paths env file_name).map
      (fun path => open_elf_for_architecture env path elf)).find? result_is_ok with
  | some libc => libc
  | none =>
    (((known_dir_candidate_paths env file_name).map
        (fun path => open_elf_for_architecture env path elf)).find? result_is_ok).getD
      (Except.error (LibcError.NotFoundNeededLibC file_name))

/-- `LibCResolver::find_needed_by_executable`: keep the declared needed
libraries matching the libc pattern, resolve each, return the first success,
and otherwise `UnrecognizedNeededLibC`. -/
def find_needed_by_executable (env : ResolverEnv) (elf : Elf) : Except LibcError NeededLibC :=
  (((elf.libraries.filter known_libc_pattern_is_match).map
      (fun lib => open_compatible_libc env elf lib)).find? result_is_ok).getD
    (Except.error LibcError.UnrecognizedNeededLibC)

/-- Whether a resolution outcome is the `NotFoundNeededLibC` error. -/
def error_is_not_found_needed_libc : Except LibcError NeededLibC → Bool
  | Except.error (LibcError.NotFoundNeededLibC _) => true
  | _ => false

/-! ## Claimed-side definitions

These two definitions follow the words of the specification (not the source)
and exist only to be compared with the source-side definitions above. -/

/-- The ELF stack-protection predicate as the specification words it: a named
function-or-untyped symbol of the non-dynamic symbol table is exactly
`__stack_chk_fail` or `__stack_chk_fail_local`. -/
def claimed_elf_stack_protection (elf : Elf) : Bool :=
  (elf.syms.filterMap (elf.symbol_is_named_function_or_unspecified)).any
    (fun name => name == "__stack_chk_fail" || name == "__stack_chk_fail_local")

/-- The PE ASLR decision procedure as the specification words it:
`RELOCS_STRIPPED` first, then the missing optional header, then
`DYNAMIC_BASE`, then the `HIGH_ENTROPY_VA` / large-address-aware grid. -/
def claimed_pe_supports_aslr (pe : PE) : ASLRCompatibilityLevel :=
  if pe.coff_characteristics &&& IMAGE_FILE_RELOCS_STRIPPED != 0 then
    ASLRCompatibilityLevel.Unsupported
  else
    match pe.optional_header with
    | none => ASLRCompatibilityLevel.Unknown
    | some oh =>
      if oh.dll_characteristics &&& IMAGE_DLLCHARACTERISTICS_DYNAMIC_BASE == 0 then
        ASLRCompatibilityLevel.Expensive
      else
        match oh.dll_characteristics &&& IMAGE_DLLCHARACTERISTICS_HIGH_ENTROPY_VA != 0,
            pe.coff_characteristics &&& IMAGE_FILE_LARGE_ADDRESS_AWARE != 0 with
        | true, true => ASLRCompatibilityLevel.Supported
        | true, false => ASLRCompatibilityLevel.SupportedBelow2G
        | false, true =>
          if pe.is_64 then ASLRCompatibilityLevel.SupportedLowEntropy
          else ASLRCompatibilityLevel.Supported
        | false, false =>
          if pe.is_64 then ASLRCompatibilityLevel.SupportedLowEntropyBelow2G
          else ASLRCompatibilityLevel.SupportedBelow2G


/-! ## Concrete fixtures used by the theorems below -/

/-- An ELF whose static symbol table has an untyped symbol named
`__stack_chk_fail_local` and whose dynamic symbol table is empty. -/
def elfC1 : Elf :=
  { e_type := 2, e_machine := 62, dynsyms := [], syms := [⟨1, 0, 0, 0⟩],
    dynstrtab := fun _ => none,
    strtab := fun n => if n = 1 then some "__stack_chk_fail_local" else none,
    program_headers := [], dynamic := none, libraries := [] }

/-- An ELF importing the function symbol `__stack_chk_fail` dynamically. -/
def elfC1w : Elf :=
  { e_type := 3, e_machine := 62, dynsyms := [⟨1, 18, 0, 0⟩], syms := [],
    dynstrtab := fun n => if n = 1 then some "__stack_chk_fail" else none,
    strtab := fun _ => none, program_headers := [], dynamic := none, libraries := [] }

/-- An `ET_EXEC` ELF. -/
def elfC9exec : Elf :=
  { e_type := 2, e_machine := 62, dynsyms := [], syms := [], dynstrtab := fun _ => none,
    strtab := fun _ => none, program_headers := [], dynamic := none, libraries := [] }

/-- An `ET_DYN` ELF without program headers or dynamic section. -/
def elfC9dyn : Elf :=
  { e_type := 3, e_machine := 62, dynsyms := [], syms := [], dynstrtab := fun _ => none,
    strtab := fun _ => none, program_headers := [], dynamic := none, libraries := [] }

/-- An `ET_DYN` ELF with a `PT_PHDR` (type 6) program header and a
`DT_FLAGS_1` dynamic entry, differing from `elfC9dyn` in everything the
source's diagnostic-only branches look at. -/
def elfC9dyn2 : Elf :=
  { e_type := 3, e_machine := 62, dynsyms := [], syms := [], dynstrtab := fun _ => none,
    strtab := fun _ => none, program_headers := [6],
    dynamic := some [⟨0x6ffffffb, 0x08000000⟩], libraries := [] }

/-- An `ET_REL` ELF (neither `ET_EXEC` nor `ET_DYN`). -/
def elfC9other : Elf :=
  { e_type := 1, e_machine := 62, dynsyms := [], syms := [], dynstrtab := fun _ => none,
    strtab := fun _ => none, program_headers := [], dynamic := none, libraries := [] }

/-- A libc ELF exporting a function named `__chk`, which the checked-name
filter accepts. -/
def elfC10 : Elf :=
  { e_type := 3, e_machine := 62, dynsyms := [⟨1, 18, 0, 4096⟩], syms := [],
    dynstrtab := fun n => if n = 1 then some "__chk" else none,
    strtab := fun _ => none, program_headers := [], dynamic := none, libraries := [] }

/-- A PE with no load configuration directory but a qualifying `.pdata`
section. -/
def peC5a : PE :=
  { coff_characteristics := 0, is_64 := false,
    optional_header := some ⟨0, 0, none⟩,
    sections := [⟨some ".pdata", 0x40000040, 0x2000, 0x100, 0x400⟩] }

/-- A 32-bit PE whose load configuration directory lives in a qualifying
`.rdata` section and declares size 4, smaller than the 72 bytes needed to
reach `SEHandlerCount`; a qualifying `.pdata` section is also present. -/
def peC5b : PE :=
  { coff_characteristics := 0, is_64 := false,
    optional_header := some ⟨0, 0, some ⟨0x1000, 0x40⟩⟩,
    sections := [⟨some ".rdata", 0x40000040, 0x1000, 0x1000, 0⟩,
                 ⟨some ".pdata", 0x40000040, 0x3000, 0x100, 0x500⟩] }

/-- File bytes for `peC5b`: the directory's declared `Size` field reads as 4. -/
def bytesC5b : List Nat := [4, 0, 0, 0]

/-- An ELF that declares a dependency on `libc.so.6`. -/
def elfC4 : Elf :=
  { e_type := 3, e_machine := 62, dynsyms := [], syms := [],
    dynstrtab := fun _ => none, strtab := fun _ => none,
    program_headers := [], dynamic := none, libraries := ["libc.so.6"] }

/-- A resolver state with an empty dynamic-linker cache and an empty
filesystem: no candidate can resolve. -/
def envC4 : ResolverEnv :=
  { sys_root := "/", ld_so_cache := some [], fs := fun _ => none }

/-- An ELF none of whose declared needed libraries matches the libc
pattern. -/
def elfC4nolibc : Elf :=
  { e_type := 3, e_machine := 62, dynsyms := [], syms := [],
    dynstrtab := fun _ => none, strtab := fun _ => none,
    program_headers := [], dynamic := none,
    libraries := ["libfoo.so", "ld-linux-x86-64.so.2"] }

/-- A libc ELF exporting `__memcpy_chk`. -/
def libcElfA : Elf :=
  { e_type := 3, e_machine := 62, dynsyms := [⟨1, 18, 0, 4096⟩], syms := [],
    dynstrtab := fun n => if n = 1 then some "__memcpy_chk" else none,
    strtab := fun _ => none, program_headers := [], dynamic := none, libraries := [] }

/-- A libc ELF exporting `__printf_chk`. -/
def libcElfB : Elf :=
  { e_type := 3, e_machine := 62, dynsyms := [⟨1, 18, 0, 4096⟩], syms := [],
    dynstrtab := fun n => if n = 1 then some "__printf_chk" else none,
    strtab := fun _ => none, program_headers := [], dynamic := none, libraries := [] }

/-- An ELF needing `libc.so.6`, analyzed while resolving its libc. -/
def elfC7 : Elf :=
  { e_type := 3, e_machine := 62, dynsyms := [], syms := [],
    dynstrtab := fun _ => none, strtab := fun _ => none,
    program_headers := [], dynamic := none, libraries := ["libc.so.6"] }

/-- A resolver state where the dynamic-linker cache maps `libc.so.6` to
`/opt/custom/libc.so.6` (holding `libcElfA`) while the well-known path
`/lib/libc.so.6` holds `libcElfB`. -/
def envC7cache : ResolverEnv :=
  { sys_root := "/",
    ld_so_cache := some [⟨"libc.so.6", "/opt/custom/libc.so.6"⟩],
    fs := fun path =>
      if path = "/opt/custom/libc.so.6" then some libcElfA
      else if path = "/lib/libc.so.6" then some libcElfB
      else none }

/-- The same filesystem with no dynamic-linker cache (an explicit sysroot was
given). -/
def envC7nocache : ResolverEnv :=
  { sys_root := "/", ld_so_cache := none, fs := envC7cache.fs }

/-- An ELF object file whose static symbol table has an untyped symbol named
`__stack_chk_fail`. -/
def elfStkYes : Elf :=
  { e_type := 1, e_machine := 62, dynsyms := [], syms := [⟨1, 0, 0, 0⟩],
    dynstrtab := fun _ => none,
    strtab := fun n => if n = 1 then some "__stack_chk_fail" else none,
    program_headers := [], dynamic := none, libraries := [] }

/-- An ELF object file with an empty symbol table. -/
def elfStkNo : Elf :=
  { e_type := 1, e_machine := 62, dynsyms := [], syms := [],
    dynstrtab := fun _ => none, strtab := fun _ => none,
    program_headers := [], dynamic := none, libraries := [] }

/-- An archive member that parses as ELF and has no qualifying symbol. -/
def memberOkNo : ArchiveMember := ⟨"a.o", MemberContent.elfObject elfStkNo⟩

/-- An archive member that parses as ELF and has a qualifying symbol. -/
def memberOkYes : ArchiveMember := ⟨"b.o", MemberContent.elfObject elfStkYes⟩

/-- An archive member whose bytes do not parse as ELF. -/
def memberBad : ArchiveMember := ⟨"c.txt", MemberContent.nonElf⟩


/-! ## Claim theorems -/

/-- Claim C1, counterexample: the claim ties the ELF stack-protection verdict
to a function-or-untyped scan of the non-dynamic symbol table for
`__stack_chk_fail` or `__stack_chk_fail_local`; on `elfC1`, whose static table
holds an untyped `__stack_chk_fail_local` and whose dynamic table is empty,
that predicate is true while the code's verdict is false. -/
theorem claim_C1_counterexample :
    Elf.has_stack_protection elfC1 = false ∧ claimed_elf_stack_protection elfC1 = true := by
  constructor <;> decide

/-- Claim C1, amended: for every ELF input, the stack-protection verdict is
true if and only if the dynamic symbol table contains a function-typed
(`STT_FUNC`/`STT_GNU_IFUNC`) symbol with a valid non-empty name equal to
`__stack_chk_fail`; otherwise it is false, never unknown. -/
theorem claim_C1_amended : ∀ e : Elf,
    (e.has_stack_protection = true ↔
      ∃ s ∈ e.dynsyms, e.dynamic_symbol_is_named_function s = some "__stack_chk_fail") ∧
    e.stack_protection_status ≠ none := by
  intro e
  refine ⟨?_, by simp [Elf.stack_protection_status]⟩
  unfold Elf.has_stack_protection
  rw [List.any_eq_true]
  constructor
  · rintro ⟨name, hmem, hbeq⟩
    obtain ⟨s, hs, hf⟩ := List.mem_filterMap.mp hmem
    exact ⟨s, hs, by rw [hf, beq_iff_eq.mp hbeq]⟩
  · rintro ⟨s, hs, hf⟩
    exact ⟨"__stack_chk_fail", List.mem_filterMap.mpr ⟨s, hs, hf⟩, by simp⟩

/-- Claim C1, witness: the amended theorem applied to `elfC1w`, an ELF whose
dynamic symbol table imports the function `__stack_chk_fail`. -/
theorem claim_C1_witness :
    Elf.has_stack_protection elfC1w = true ∧ Elf.stack_protection_status elfC1w ≠ none :=
  ⟨(claim_C1_amended elfC1w).1.mpr ⟨⟨1, 18, 0, 0⟩, by decide, by decide⟩,
   (claim_C1_amended elfC1w).2⟩

/-- Claim C2: the fortify-source verdict of a protected set `P` and an
unprotected set `U` is unknown when both are empty, bad when only `U` is
non-empty, good when only `P` is non-empty and mixed when both are non-empty;
the mapping is total, so every whole-evaluation verdict is one of the four
markers. -/
theorem claim_C2 : ∀ P U : List String,
    (P = [] → U = [] → fortify_source_marker P U = MARKER_UNKNOWN) ∧
    (P = [] → U ≠ [] → fortify_source_marker P U = MARKER_BAD) ∧
    (P ≠ [] → U = [] → fortify_source_marker P U = MARKER_GOOD) ∧
    (P ≠ [] → U ≠ [] → fortify_source_marker P U = MARKER_MAYBE) ∧
    (∀ (e : Elf) (libc : NeededLibC),
      elf_fortify_source_verdict e libc = MARKER_UNKNOWN ∨
      elf_fortify_source_verdict e libc = MARKER_BAD ∨
      elf_fortify_source_verdict e libc = MARKER_GOOD ∨
      elf_fortify_source_verdict e libc = MARKER_MAYBE) := by
  intro P U
  refine ⟨?_, ?_, ?_, ?_, ?_⟩
  · intro h1 h2; subst h1; subst h2; rfl
  · intro h1 h2; subst h1
    cases U with
    | nil => exact absurd rfl h2
    | cons a l => rfl
  · intro h1 h2; subst h2
    cases P with
    | nil => exact absurd rfl h1
    | cons a l => rfl
  · intro h1 h2
    cases P with
    | nil => exact absurd rfl h1
    | cons a l =>
      cases U with
      | nil => exact absurd rfl h2
      | cons b k => rfl
  · intro e libc
    unfold elf_fortify_source_verdict fortify_source_marker
    cases h1 : (get_libc_functions_by_protection e libc).1.isEmpty <;>
    cases h2 : (get_libc_functions_by_protection e libc).2.isEmpty <;>
    simp [h1, h2]

/-- Claim C2, witness: the four quadrants at concrete sets. -/
theorem claim_C2_witness :
    fortify_source_marker [] [] = MARKER_UNKNOWN ∧
    fortify_source_marker [] ["memcpy"] = MARKER_BAD ∧
    fortify_source_marker ["memcpy"] [] = MARKER_GOOD ∧
    fortify_source_marker ["memcpy"] ["read"] = MARKER_MAYBE :=
  ⟨(claim_C2 [] []).1 rfl rfl,
   (claim_C2 [] ["memcpy"]).2.1 rfl (by simp),
   (claim_C2 ["memcpy"] []).2.2.1 (by simp) rfl,
   (claim_C2 ["memcpy"] ["read"]).2.2.2.1 (by simp) (by simp)⟩

/-- Claim C3: the PE ASLR verdict follows exactly the claimed decision order:
`RELOCS_STRIPPED` forces unsupported; a missing optional header yields
unknown; a cleared `DYNAMIC_BASE` yields expensive; otherwise the
`HIGH_ENTROPY_VA` / large-address-aware grid decides, with the 64-bit cases
lowered to the low-entropy variants. -/
theorem claim_C3 (pe : PE) : pe.supports_aslr = claimed_pe_supports_aslr pe := by
  unfold PE.supports_aslr claimed_pe_supports_aslr
  cases pe.optional_header with
  | none =>
    cases hR : (pe.coff_characteristics &&& IMAGE_FILE_RELOCS_STRIPPED == 0) <;> simp [bne, hR]
  | some oh =>
    cases hR : (pe.coff_characteristics &&& IMAGE_FILE_RELOCS_STRIPPED == 0) <;>
    cases hD : (oh.dll_characteristics &&& IMAGE_DLLCHARACTERISTICS_DYNAMIC_BASE == 0) <;>
    cases hH : (oh.dll_characteristics &&& IMAGE_DLLCHARACTERISTICS_HIGH_ENTROPY_VA == 0) <;>
    cases hL : (pe.coff_characteristics &&& IMAGE_FILE_LARGE_ADDRESS_AWARE == 0) <;>
    cases h64 : pe.is_64 <;>
    simp [bne, hR, hD, hH, hL, h64]

/-- Claim C4, counterexample: on `elfC4` (which needs `libc.so.6`, a name the
libc pattern matches) with a resolver state in which no candidate file
resolves, the resolver fails with `UnrecognizedNeededLibC`, not with the
`NotFoundNeededLibC` error the claim predicts. -/
theorem claim_C4_counterexample :
    find_needed_by_executable envC4 elfC4 = Except.error LibcError.UnrecognizedNeededLibC ∧
    error_is_not_found_needed_libc (find_needed_by_executable envC4 elfC4) = false := by
  constructor <;> decide

/-- Claim C4, amended: if no declared needed-library name matches the libc
pattern, auto-resolution fails with `UnrecognizedNeededLibC`; and every error
`find_needed_by_executable` surfaces is `UnrecognizedNeededLibC` — the
`NotFoundNeededLibC` error built inside `open_compatible_libc` is discarded by
the `find(Result::is_ok).unwrap_or(Err(UnrecognizedNeededLibC))` combinator. -/
theorem claim_C4_amended :
    (∀ (env : ResolverEnv) (e : Elf),
      (∀ lib ∈ e.libraries, known_libc_pattern_is_match lib = false) →
      find_needed_by_executable env e = Except.error LibcError.UnrecognizedNeededLibC) ∧
    (∀ (env : ResolverEnv) (e : Elf) (err : LibcError),
      find_needed_by_executable env e = Except.error err →
      err = LibcError.UnrecognizedNeededLibC) := by
  constructor
  · intro env e h
    unfold find_needed_by_executable
    have hfilter : e.libraries.filter known_libc_pattern_is_match = [] := by
      rw [List.filter_eq_nil_iff]
      intro a ha
      simp [h a ha]
    rw [hfilter]
    rfl
  · intro env e err h
    unfold find_needed_by_executable at h
    cases hf : ((e.libraries.filter known_libc_pattern_is_match).map
        (fun lib => open_compatible_libc env e lib)).find? result_is_ok with
    | none => rw [hf] at h; simpa using h.symm
    | some r =>
      rw [hf] at h
      simp only [Option.getD_some] at h
      have hok := List.find?_some hf
      rw [h] at hok
      simp [result_is_ok] at hok

/-- Claim C4, witness: the amended theorem applied to an ELF with no
libc-matching dependency, and to the counterexample's resolution. -/
theorem claim_C4_witness :
    find_needed_by_executable envC4 elfC4nolibc = Except.error LibcError.UnrecognizedNeededLibC ∧
    LibcError.UnrecognizedNeededLibC = LibcError.UnrecognizedNeededLibC :=
  ⟨claim_C4_amended.1 envC4 elfC4nolibc (by decide),
   claim_C4_amended.2 envC4 elfC4 LibcError.UnrecognizedNeededLibC (by decide)⟩

/-- Claim C5: the PE Safe-SEH verdict is true exactly when the load-config
chain succeeds with a positive `SEHandlerCount` or a qualifying `.pdata`
section exists; every failure of the chain (no directory, undersized declared
size, no containing section, unreadable offset) yields no data and falls back
to the `.pdata` check instead of erroring — in particular `peC5a` (no
load-config directory, qualifying `.pdata`) yields true, and `peC5b`
(declared size 4, below the 72 bytes reaching `SEHandlerCount`) falls back
and yields true. -/
theorem claim_C5 :
    (∀ (bytes : List Nat) (pe : PE),
      PE.has_safe_structured_exception_handlers bytes pe = true ↔
        (PE.has_safe_seh_handlers bytes pe = some true ∨ PE.has_pdata_section pe = true)) ∧
    (PE.has_safe_seh_handlers [] peC5a = none ∧
      PE.has_safe_structured_exception_handlers [] peC5a = true) ∧
    (PE.has_safe_seh_handlers bytesC5b peC5b = none ∧
      PE.has_safe_structured_exception_handlers bytesC5b peC5b = true) := by
  refine ⟨?_, ⟨by decide, by decide⟩, ⟨by decide, by decide⟩⟩
  intro bytes pe
  unfold PE.has_safe_structured_exception_handlers
  cases h : PE.has_safe_seh_handlers bytes pe with
  | none => simp [h]
  | some b => cases b <;> simp [h]

/-- Helper for claim C6: slicing `__<d>_chk` from byte 2 to byte `len - 4`
recovers `d`. -/
theorem string_slice_strip_chk (d : List Char) :
    string_slice ('_' :: '_' :: (d ++ ['_', 'c', 'h', 'k'])) 2
      (('_' :: '_' :: (d ++ ['_', 'c', 'h', 'k'])).length - 4) = some d := by
  unfold string_slice
  have hlen : ('_' :: '_' :: (d ++ ['_', 'c', 'h', 'k'])).length = d.length + 6 := by simp
  rw [hlen]
  have h2 : d.length + 6 - 4 = d.length + 2 := by omega
  rw [h2, if_pos ⟨by omega, by omega⟩]
  have h3 : d.length + 2 = (d.length + 1) + 1 := by omega
  rw [h3]
  simp [List.take_succ_cons, List.drop_succ_cons]

/-- Claim C6: `from_unchecked_name "memcpy"` and
`from_checked_name "__memcpy_chk"` are equal, `get_unchecked_name` yields
`memcpy` on both, and for every name `s` the round trip
`from_unchecked_name s |> get_unchecked_name` returns `s`. -/
theorem claim_C6 :
    CheckedFunction.from_unchecked_name "memcpy" =
      CheckedFunction.from_checked_name "__memcpy_chk" ∧
    (CheckedFunction.from_unchecked_name "memcpy").get_unchecked_name_opt = some "memcpy" ∧
    (CheckedFunction.from_checked_name "__memcpy_chk").get_unchecked_name_opt = some "memcpy" ∧
    ∀ s : String, (CheckedFunction.from_unchecked_name s).get_unchecked_name_opt = some s := by
  refine ⟨by decide, by decide, by decide, ?_⟩
  intro s
  obtain ⟨d⟩ := s
  simp only [CheckedFunction.from_unchecked_name, CheckedFunction.get_unchecked_name_opt]
  have hdata : ("__" ++ String.mk d ++ "_chk").toList = '_' :: '_' :: (d ++ ['_', 'c', 'h', 'k']) := rfl
  rw [hdata, string_slice_strip_chk d]
  rfl

/-- Claim C7: during auto-resolution `open_compatible_libc` returns the first
successful cache candidate when one exists (so a cache hit beats any
well-known-path file), falls back to the well-known candidates only when no
cache candidate succeeds, and the well-known paths are the directories `lib`,
`lib64`, `lib32`, each crossed with the prefixes `""` then `usr`, joined under
the sysroot, in that order. -/
theorem claim_C7 :
    (∀ (env : ResolverEnv) (e : Elf) (name : String) (r : Except LibcError NeededLibC),
      first_ok_result env e (cache_candidate_paths env name) = some r →
      open_compatible_libc env e name = r) ∧
    (∀ (env : ResolverEnv) (e : Elf) (name : String),
      first_ok_result env e (cache_candidate_paths env name) = none →
      open_compatible_libc env e name =
        (first_ok_result env e (known_dir_candidate_paths env name)).getD
          (Except.error (LibcError.NotFoundNeededLibC name))) ∧
    (∀ (env : ResolverEnv) (name : String),
      known_dir_candidate_paths env name =
        [path_join (path_join (path_join env.sys_root "") "lib") name,
         path_join (path_join (path_join env.sys_root "usr") "lib") name,
         path_join (path_join (path_join env.sys_root "") "lib64") name,
         path_join (path_join (path_join env.sys_root "usr") "lib64") name,
         path_join (path_join (path_join env.sys_root "") "lib32") name,
         path_join (path_join (path_join env.sys_root "usr") "lib32") name]) := by
  refine ⟨?_, ?_, ?_⟩
  · intro env e name r h
    unfold open_compatible_libc
    rw [show ((cache_candidate_paths env name).map
        (fun path => open_elf_for_architecture env path e)).find? result_is_ok = some r from h]
  · intro env e name h
    unfold open_compatible_libc
    rw [show ((cache_candidate_paths env name).map
        (fun path => open_elf_for_architecture env path e)).find? result_is_ok = none from h]
    rfl
  · intro env name
    rfl

/-- Claim C7, witness: with both a cache entry (`/opt/custom/libc.so.6`,
holding `libcElfA`) and a well-known-path file (`/lib/libc.so.6`, holding
`libcElfB`) for the same name, the cache entry's library is returned; without
a cache the well-known path's library is returned. -/
theorem claim_C7_witness :
    open_compatible_libc envC7cache elfC7 "libc.so.6" =
      Except.ok ⟨[CheckedFunction.from_checked_name "__memcpy_chk"]⟩ ∧
    open_compatible_libc envC7nocache elfC7 "libc.so.6" =
      Except.ok ⟨[CheckedFunction.from_checked_name "__printf_chk"]⟩ :=
  ⟨claim_C7.1 envC7cache elfC7 "libc.so.6" _ (by decide),
   (claim_C7.2.1 envC7nocache elfC7 "libc.so.6" (by decide)).trans (by decide)⟩

/-- Claim C8: when every member extracts and parses as ELF, the archive
verdict is exactly `ok (some member satisfies the scan)`; with any front of
non-satisfying ELF members, a failing member errors the whole analysis (so a
non-ELF member before the first satisfying member prevents the true verdict),
and a satisfying member short-circuits to `ok true` regardless of what
follows. -/
theorem claim_C8 :
    (∀ ms : List ArchiveMember, (∀ m ∈ ms, Archive.member_is_elf m = true) →
      Archive.has_stack_protection ms = Except.ok (ms.any Archive.member_satisfies)) ∧
    (∀ (front : List ArchiveMember) (m : ArchiveMember) (back : List ArchiveMember)
        (err : ArchiveError),
      (∀ x ∈ front, Archive.member_has_stack_protection x = Except.ok false) →
      Archive.member_has_stack_protection m = Except.error err →
      Archive.has_stack_protection (front ++ m :: back) = Except.error err) ∧
    (∀ (front : List ArchiveMember) (m : ArchiveMember) (back : List ArchiveMember),
      (∀ x ∈ front, Archive.member_has_stack_protection x = Except.ok false) →
      Archive.member_satisfies m = true →
      Archive.has_stack_protection (front ++ m :: back) = Except.ok true) := by
  refine ⟨?_, ?_, ?_⟩
  · intro ms h
    induction ms with
    | nil => rfl
    | cons m rest ih =>
      have hm := h m (List.mem_cons_self m rest)
      have hrest := ih (fun x hx => h x (List.mem_cons_of_mem m hx))
      cases hc : m.content with
      | elfObject e =>
        have hmem : Archive.member_has_stack_protection m =
            Except.ok (Archive.elf_member_scan e) := by
          unfold Archive.member_has_stack_protection
          rw [hc]
        unfold Archive.has_stack_protection
        rw [hmem]
        have hsat : Archive.member_satisfies m = Archive.elf_member_scan e := by
          unfold Archive.member_satisfies
          rw [hmem]
          cases Archive.elf_member_scan e <;> rfl
        cases hscan : Archive.elf_member_scan e with
        | true => simp [List.any_cons, hsat, hscan]
        | false => rw [hrest]; simp [List.any_cons, hsat, hscan]
      | extractError => unfold Archive.member_is_elf at hm; rw [hc] at hm; cases hm
      | parseError => unfold Archive.member_is_elf at hm; rw [hc] at hm; cases hm
      | nonElf => unfold Archive.member_is_elf at hm; rw [hc] at hm; cases hm
  · intro front m back err hfront hm
    induction front with
    | nil =>
      show Archive.has_stack_protection (m :: back) = Except.error err
      unfold Archive.has_stack_protection
      rw [hm]
    | cons x rest ih =>
      have hx := hfront x (List.mem_cons_self x rest)
      have hrest := fun y hy => hfront y (List.mem_cons_of_mem x hy)
      show Archive.has_stack_protection (x :: (rest ++ m :: back)) = Except.error err
      unfold Archive.has_stack_protection
      rw [hx]
      exact ih hrest
  · intro front m back hfront hsat
    have hm : Archive.member_has_stack_protection m = Except.ok true := by
      unfold Archive.member_satisfies at hsat
      cases hc : Archive.member_has_stack_protection m with
      | ok b =>
        cases b with
        | true => rfl
        | false => rw [hc] at hsat; simp at hsat
      | error e => rw [hc] at hsat; simp at hsat
    induction front with
    | nil =>
      show Archive.has_stack_protection (m :: back) = Except.ok true
      unfold Archive.has_stack_protection
      rw [hm]
    | cons x rest ih =>
      have hx := hfront x (List.mem_cons_self x rest)
      have hrest := fun y hy => hfront y (List.mem_cons_of_mem x hy)
      show Archive.has_stack_protection (x :: (rest ++ m :: back)) = Except.ok true
      unfold Archive.has_stack_protection
      rw [hx]
      exact ih hrest

/-- Claim C8, witness: a non-ELF member before the satisfying member errors
the analysis; placed after the satisfying member it is never reached and the
verdict is true; and an all-ELF archive's verdict equals the any-member scan. -/
theorem claim_C8_witness :
    Archive.has_stack_protection [memberOkNo, memberBad, memberOkYes] =
      Except.error (ArchiveError.unexpectedBinaryFormat "c.txt") ∧
    Archive.has_stack_protection [memberOkNo, memberOkYes, memberBad] = Except.ok true ∧
    Archive.has_stack_protection [memberOkNo, memberOkYes] =
      Except.ok ([memberOkNo, memberOkYes].any Archive.member_satisfies) :=
  ⟨claim_C8.2.1 [memberOkNo] memberBad [memberOkYes]
      (ArchiveError.unexpectedBinaryFormat "c.txt") (by decide) (by decide),
   claim_C8.2.2 [memberOkNo] memberOkYes [memberBad] (by decide) (by decide),
   claim_C8.1 [memberOkNo, memberOkYes] (by decide)⟩

/-- Claim C9: the ELF ASLR verdict is exactly unsupported for `ET_EXEC`,
exactly supported for `ET_DYN`, unknown for every other header type, and
depends only on the header type (the program-header / dynamic-section
distinctions are diagnostic only). -/
theorem claim_C9 : ∀ e : Elf,
    (e.e_type = ET_EXEC → e.supports_aslr = ASLRCompatibilityLevel.Unsupported) ∧
    (e.e_type = ET_DYN → e.supports_aslr = ASLRCompatibilityLevel.Supported) ∧
    (e.e_type ≠ ET_EXEC → e.e_type ≠ ET_DYN → e.supports_aslr = ASLRCompatibilityLevel.Unknown) ∧
    (∀ e' : Elf, e.e_type = e'.e_type → e.supports_aslr = e'.supports_aslr) := by
  intro e
  refine ⟨?_, ?_, ?_, ?_⟩ <;> intros <;> simp_all [Elf.supports_aslr, ET_EXEC, ET_DYN]

/-- Claim C9, witness: the three header types at concrete ELFs, and the
independence from program headers and dynamic section between `elfC9dyn` and
`elfC9dyn2`. -/
theorem claim_C9_witness :
    Elf.supports_aslr elfC9exec = ASLRCompatibilityLevel.Unsupported ∧
    Elf.supports_aslr elfC9dyn = ASLRCompatibilityLevel.Supported ∧
    Elf.supports_aslr elfC9other = ASLRCompatibilityLevel.Unknown ∧
    Elf.supports_aslr elfC9dyn = Elf.supports_aslr elfC9dyn2 :=
  ⟨(claim_C9 elfC9exec).1 rfl,
   (claim_C9 elfC9dyn).2.1 rfl,
   (claim_C9 elfC9other).2.2.1 (by decide) (by decide),
   (claim_C9 elfC9dyn).2.2.2 elfC9dyn2 rfl⟩

/-- Claim C10: `get_unchecked_name` is in bounds exactly for checked names of
length at least 6, yet `function_is_checked_version` accepts the 5-byte name
`__chk` (prefix and suffix overlap), which the libc scan of `elfC10` collects;
computing the unchecked name of `__chk` slices out of range (a Rust panic,
modelled as `none`). -/
theorem claim_C10 :
    (∀ f : CheckedFunction,
        (f.get_unchecked_name_opt).isSome = true ↔ 6 ≤ f.checked_name.toList.length) ∧
    function_is_checked_version "__chk" = true ∧
    (CheckedFunction.from_checked_name "__chk").get_unchecked_name_opt = none ∧
    NeededLibC.get_checked_functions_elf elfC10 = [CheckedFunction.from_checked_name "__chk"] := by
  refine ⟨?_, by decide, by decide, by decide⟩
  intro f
  unfold CheckedFunction.get_unchecked_name_opt string_slice
  by_cases h : 2 ≤ f.checked_name.toList.length - 4 ∧
      f.checked_name.toList.length - 4 ≤ f.checked_name.toList.length
  · simp [h]; omega
  · simp [h]; omega

end BinarySecurityCheck
